import Mathlib

/-!
Shallow embedding of the GoMart e-commerce stock-reservation flow.

Server side (route handlers, `src/app/api/...` in the repository):
  * `patchStock` embeds the `PATCH /api/products/[id]/stock` handler.
  * `vendorLogin` embeds the `POST /api/auth/vendor-login` handler.

Client side (`src/app/page.tsx`, the home/cart page):
  * `updateProductStock`, `addToCart`, `updateCartQuantity`,
    `removeFromCart`, `clearCart` embed the correspondingly named
    functions of the page component.  The client state (the `featuredProducts`
    React state, the local-storage cart) together with the server database is
    gathered in `SysState`; each function returns its outcome (which toast is
    shown / which HTTP-style result occurred) together with the next state.
-/

/-- The server-side product row, as selected by the stock PATCH handler
(`select: { id, productName, stockQuantity }`). -/
structure DbProduct where
  id : String
  productName : String
  stockQuantity : Int
deriving DecidableEq

/-- Responses of the stock PATCH handler, one constructor per `NextResponse`
returned by the handler. -/
inductive StockResponse where
  | validationError
  | notFound
  | insufficientStock (currentStock requestedChange : Int)
  | success (previousStock newStock change : Int)
deriving DecidableEq

/-- The HTTP status code attached to each `StockResponse` by the handler. -/
def statusCode : StockResponse → Nat
  | StockResponse.validationError => 400
  | StockResponse.notFound => 404
  | StockResponse.insufficientStock _ _ => 400
  | StockResponse.success _ _ _ => 200

/-- The `prisma.product.update` call of the handler: write the new stock
quantity on the row with the given id. -/
def updStock (id : String) (v : Int) (db : List DbProduct) : List DbProduct :=
  db.map (fun p => if p.id == id then { p with stockQuantity := v } else p)

/-- Read a product's stock from the database (the handler's `findUnique`
followed by the `stockQuantity` projection). -/
def getStock (db : List DbProduct) (id : String) : Option Int :=
  (db.find? (fun p => p.id == id)).map (fun p => p.stockQuantity)

/-- Embedding of the `PATCH /api/products/[id]/stock` route handler.
`quantityChange = none` models an absent (`undefined`/`null`) body field;
`operation` is destructured from the body by the handler but never used.
Returns the response together with the database after the call. -/
def patchStock (db : List DbProduct) (id : String) (quantityChange : Option Int)
    (operation : Option String) : StockResponse × List DbProduct :=
  match quantityChange with
  | none => (StockResponse.validationError, db)
  | some qc =>
    match db.find? (fun p => p.id == id) with
    | none => (StockResponse.notFound, db)
    | some product =>
      let newStockQuantity := product.stockQuantity + qc
      if newStockQuantity < 0 then
        (StockResponse.insufficientStock product.stockQuantity qc, db)
      else
        (StockResponse.success product.stockQuantity newStockQuantity qc,
          updStock id newStockQuantity db)

/-- The vendor row, with the fields the login handler consults. -/
structure Vendor where
  email : String
  phoneNumber : String
  vendorName : String
  isActive : Bool
deriving DecidableEq

/-- Responses of the vendor-login handler, one constructor per
`NextResponse` (400 missing fields, 401 unknown vendor, 403 inactive,
200 success carrying the vendor record). -/
inductive LoginResponse where
  | missingFields
  | invalidCredentials
  | inactiveAccount
  | success (vendor : Vendor)
deriving DecidableEq

/-- The HTTP status code attached to each `LoginResponse` by the handler. -/
def loginStatusCode : LoginResponse → Nat
  | LoginResponse.missingFields => 400
  | LoginResponse.invalidCredentials => 401
  | LoginResponse.inactiveAccount => 403
  | LoginResponse.success _ => 200

/-- The `identifier.trim()` of the login handler, written over the character
list so that the embedding is executable by the kernel. -/
def trimStr (s : String) : String :=
  ⟨((s.data.dropWhile Char.isWhitespace).reverse.dropWhile Char.isWhitespace).reverse⟩

/-- The `.toLowerCase()` of the login handler, written over the character
list so that the embedding is executable by the kernel. -/
def toLowerStr (s : String) : String := ⟨s.data.map Char.toLower⟩

/-- Embedding of the `POST /api/auth/vendor-login` route handler.  An empty
string models a missing/empty (falsy) field.  The handler looks the vendor up
by normalized email or trimmed phone number, checks `isActive`, and returns
the vendor; the password value is never compared against anything. -/
def vendorLogin (vendors : List Vendor) (identifier password : String) : LoginResponse :=
  if identifier = "" ∨ password = "" then LoginResponse.missingFields
  else
    let normalizedIdentifier := toLowerStr (trimStr identifier)
    match vendors.find? (fun v =>
        v.email == normalizedIdentifier || v.phoneNumber == trimStr identifier) with
    | none => LoginResponse.invalidCredentials
    | some vendor =>
      if !vendor.isActive then LoginResponse.inactiveAccount
      else LoginResponse.success vendor

/-- The client-side product record (the fields of the `Product` type of the
home page that the cart logic touches). -/
structure Product where
  id : String
  productName : String
  price : Int
  stockQuantity : Int
deriving DecidableEq

/-- The client-side cart line item (`CartItem` in the home page): product
reference, price at add time, held quantity and the denormalized
"remaining stock as last observed". -/
structure CartItem where
  productId : String
  productName : String
  price : Int
  quantity : Int
  stockQuantity : Int
deriving DecidableEq

/-- The whole state the cart flow manipulates: the server database, the
client's `featuredProducts` React state and the local-storage cart. -/
structure SysState where
  db : List DbProduct
  featuredProducts : List Product
  cartItems : List CartItem
deriving DecidableEq

/-- Outcome of the client's `updateProductStock` helper: `ok` with the new
stock on a 2xx response, `err` when the fetch is rejected (the helper throws
and the caller's catch branch runs). -/
inductive UpdateOutcome where
  | ok (newStock : Int)
  | err
deriving DecidableEq

/-- Embedding of the client helper `updateProductStock(productId,
quantityChange)`: it PATCHes the stock endpoint and, on success, stores the
returned `newStock` into the matching `featuredProducts` entry; on any
non-ok response it throws, leaving all state unchanged. -/
def updateProductStock (s : SysState) (productId : String) (quantityChange : Int) :
    UpdateOutcome × SysState :=
  match patchStock s.db productId (some quantityChange) none with
  | (StockResponse.success _ nw _, db1) =>
      (UpdateOutcome.ok nw,
        { s with db := db1,
                 featuredProducts := s.featuredProducts.map (fun p =>
                   if p.id == productId then { p with stockQuantity := nw } else p) })
  | (_, _) => (UpdateOutcome.err, s)

/-- Replace the first element satisfying the predicate (the home page's
`currentCart.map((item, index) => index === existingItemIndex ? f(item) :
item)`, where `existingItemIndex` is the first matching index). -/
def replaceFirstBy (pred : α → Bool) (f : α → α) : List α → List α
  | [] => []
  | x :: xs => if pred x then f x :: xs else x :: replaceFirstBy pred f xs

/-- The toast shown by `addToCart`, one constructor per exit path of the
function (`added` covers both the "Added to cart" and "Updated quantity in
cart" successes, which share the commit path). -/
inductive AddResult where
  | stockLimitError
  | outOfStockError
  | mergeLimitError
  | updateFailed
  | added
deriving DecidableEq

/-- Shared tail of `addToCart`: issue the stock decrement and persist the
prepared cart only when the decrement succeeds. -/
def commitCart (s : SysState) (productId : String) (quantityChange : Int)
    (updatedCart : List CartItem) : AddResult × SysState :=
  match updateProductStock s productId (-quantityChange) with
  | (UpdateOutcome.ok _, s1) => (AddResult.added, { s1 with cartItems := updatedCart })
  | (UpdateOutcome.err, s1) => (AddResult.updateFailed, s1)

/-- Embedding of the home page's `addToCart(product)`; `quantity` is the
value of `productQuantities[product.id]` the function reads first.  Mirrors
the guards (requested quantity above known stock, out of stock, merged
quantity above known stock), the merge-or-append cart update, and the
decrement of exactly the newly added quantity via `commitCart`. -/
def addToCart (s : SysState) (product : Product) (quantity : Int) : AddResult × SysState :=
  if quantity > product.stockQuantity then (AddResult.stockLimitError, s)
  else if product.stockQuantity ≤ 0 then (AddResult.outOfStockError, s)
  else
    match s.cartItems.find? (fun item => item.productId == product.id) with
    | some existingItem =>
      let newQuantity := existingItem.quantity + quantity
      if newQuantity > product.stockQuantity then (AddResult.mergeLimitError, s)
      else
        let updatedCart := replaceFirstBy (fun item => item.productId == product.id)
          (fun item => { item with quantity := newQuantity,
                                   stockQuantity := product.stockQuantity - quantity })
          s.cartItems
        commitCart s product.id quantity updatedCart
    | none =>
      let newItem : CartItem :=
        { productId := product.id, productName := product.productName,
          price := product.price, quantity := quantity,
          stockQuantity := product.stockQuantity - quantity }
      commitCart s product.id quantity (s.cartItems ++ [newItem])

/-- The toast shown by `updateCartQuantity`, one constructor per exit path. -/
inductive UpdateCartResult where
  | noItem
  | productMissing
  | stockLimitError
  | updateFailed
  | updated
deriving DecidableEq

/-- Embedding of the home page's `updateCartQuantity(productId, delta)`.
The local new quantity is clamped (to at most `oldQuantity +
availableStock` when increasing, to at least 1 when decreasing), the cart
item's denormalized stock is recomputed from the actual change, but the
server is sent `-delta`, the unclamped request. -/
def updateCartQuantity (s : SysState) (productId : String) (delta : Int) :
    UpdateCartResult × SysState :=
  match s.cartItems.find? (fun i => i.productId == productId) with
  | none => (UpdateCartResult.noItem, s)
  | some item =>
    match s.featuredProducts.find? (fun p => p.id == productId) with
    | none => (UpdateCartResult.productMissing, s)
    | some currentProduct =>
      let oldQuantity := item.quantity
      let availableStock := currentProduct.stockQuantity
      if delta > 0 ∧ availableStock < delta then (UpdateCartResult.stockLimitError, s)
      else
        let newQuantity :=
          if delta > 0 then min (oldQuantity + delta) (oldQuantity + availableStock)
          else max (oldQuantity + delta) 1
        let updated := s.cartItems.map (fun ci =>
          if ci.productId == productId then
            { ci with quantity := newQuantity,
                      stockQuantity := availableStock - (newQuantity - oldQuantity) }
          else ci)
        match updateProductStock s productId (-delta) with
        | (UpdateOutcome.ok _, s1) => (UpdateCartResult.updated, { s1 with cartItems := updated })
        | (UpdateOutcome.err, s1) => (UpdateCartResult.updateFailed, s1)

/-- The toast shown by `removeFromCart`, one constructor per exit path. -/
inductive RemoveResult where
  | noItem
  | removeFailed
  | removed
deriving DecidableEq

/-- Embedding of the home page's `removeFromCart(productId)`: restore the
item's full held quantity to stock and, on success, drop the line item. -/
def removeFromCart (s : SysState) (productId : String) : RemoveResult × SysState :=
  match s.cartItems.find? (fun i => i.productId == productId) with
  | none => (RemoveResult.noItem, s)
  | some item =>
    let updated := s.cartItems.filter (fun ci => ci.productId != productId)
    match updateProductStock s productId item.quantity with
    | (UpdateOutcome.ok _, s1) => (RemoveResult.removed, { s1 with cartItems := updated })
    | (UpdateOutcome.err, s1) => (RemoveResult.removeFailed, s1)

/-- The restore loop of `clearCart`: one `updateProductStock` call per cart
item, each with its own `.catch`, so a failing restore never prevents the
remaining ones.  Returns, per item, whether its restore succeeded. -/
def restoreAll (items : List CartItem) (s : SysState) : List (String × Bool) × SysState :=
  match items with
  | [] => ([], s)
  | item :: rest =>
    let r := updateProductStock s item.productId item.quantity
    let ok := match r.fst with
      | UpdateOutcome.ok _ => true
      | UpdateOutcome.err => false
    let tail := restoreAll rest r.snd
    ((item.productId, ok) :: tail.fst, tail.snd)

/-- Embedding of the home page's `clearCart()`: restore stock for every
item (failures caught per item), then empty the cart unconditionally. -/
def clearCart (s : SysState) : List (String × Bool) × SysState :=
  let r := restoreAll s.cartItems s
  (r.fst, { r.snd with cartItems := [] })

/-- Progress of one in-flight stock PATCH handler call: not yet started,
current stock captured by `findUnique`, or finished with a success flag. -/
inductive Phase where
  | ready
  | readDone (cur : Int)
  | finished (ok : Bool)
deriving DecidableEq

/-- Two concurrent stock PATCH calls against one product: the shared stock
row plus each call's phase. -/
structure RaceState where
  stock : Int
  c1 : Phase
  c2 : Phase
deriving DecidableEq

/-- One step of a single PATCH handler call against an existing product:
first the read (`findUnique`, capturing the current stock), then the
conditional blind write (`update` setting the stock to the value computed
from the captured read, rejected only when that value is negative). -/
def advanceCall (delta : Int) (stock : Int) (ph : Phase) : Phase × Int :=
  match ph with
  | Phase.ready => (Phase.readDone stock, stock)
  | Phase.readDone cur =>
      if cur + delta < 0 then (Phase.finished false, stock)
      else (Phase.finished true, cur + delta)
  | Phase.finished b => (Phase.finished b, stock)

/-- Scheduler step: advance call 1 when `pick1`, else call 2. -/
def raceStep (d1 d2 : Int) (pick1 : Bool) (s : RaceState) : RaceState :=
  if pick1 then
    let r := advanceCall d1 s.stock s.c1
    { s with c1 := r.fst, stock := r.snd }
  else
    let r := advanceCall d2 s.stock s.c2
    { s with c2 := r.fst, stock := r.snd }

/-- Run the two concurrent calls under a schedule (a list of picks). -/
def runRace (d1 d2 : Int) (sched : List Bool) (s : RaceState) : RaceState :=
  sched.foldl (fun st pick => raceStep d1 d2 pick st) s

/-- Number of the two calls that finished successfully. -/
def successCount (s : RaceState) : Nat :=
  (match s.c1 with
    | Phase.finished true => 1
    | _ => 0) +
  (match s.c2 with
    | Phase.finished true => 1
    | _ => 0)

/-- A one-product database used by concrete witnesses and traces. -/
def dbW : List DbProduct := [{ id := "p1", productName := "Widget", stockQuantity := 10 }]

/-- The client-side view of the witness product, stock 10. -/
def prodW : Product := { id := "p1", productName := "Widget", price := 100, stockQuantity := 10 }

/-- Initial witness state: stock 10, empty cart. -/
def sW : SysState := { db := dbW, featuredProducts := [prodW], cartItems := [] }

/-- Spec example trace, step 1: add quantity 3 from stock 10. -/
def sEx1 : SysState := (addToCart sW prodW 3).snd

/-- Spec example trace, step 2: raise the cart quantity by delta +2. -/
def sEx2 : SysState := (updateCartQuantity sEx1 "p1" 2).snd

/-- Spec example trace, step 3: remove the item. -/
def sEx3 : SysState := (removeFromCart sEx2 "p1").snd

/-- Failing trace, step 1: add quantity 1 from stock 10. -/
def tEx1 : SysState := (addToCart sW prodW 1).snd

/-- Failing trace, step 2: lower the cart quantity by delta -1 while the
cart already holds the minimum quantity 1. -/
def tEx2 : SysState := (updateCartQuantity tEx1 "p1" (-1)).snd

/-- Witness state for claims about items already in the cart: stock 8 with
2 units held in the cart. -/
def sHold : SysState :=
  { db := [{ id := "p1", productName := "Widget", stockQuantity := 8 }],
    featuredProducts := [{ id := "p1", productName := "Widget", price := 100, stockQuantity := 8 }],
    cartItems := [{ productId := "p1", productName := "Widget", price := 100,
                    quantity := 2, stockQuantity := 8 }] }

/-- The client-side view of the witness product in `sHold`, stock 8. -/
def prodHold : Product := { id := "p1", productName := "Widget", price := 100, stockQuantity := 8 }

/-- Cart line item of `sHold`. -/
def itemHold : CartItem :=
  { productId := "p1", productName := "Widget", price := 100, quantity := 2, stockQuantity := 8 }

/-- Database row for product A of the clear-cart example. -/
def rowA (a : Int) : DbProduct := { id := "pA", productName := "A", stockQuantity := a }

/-- Database row for product B of the clear-cart example. -/
def rowB (b : Int) : DbProduct := { id := "pB", productName := "B", stockQuantity := b }

/-- Cart line item holding `qa` units of product A. -/
def itemA (qa : Int) : CartItem :=
  { productId := "pA", productName := "A", price := 1, quantity := qa, stockQuantity := 0 }

/-- Cart line item holding `qb` units of product B. -/
def itemB (qb : Int) : CartItem :=
  { productId := "pB", productName := "B", price := 1, quantity := qb, stockQuantity := 0 }

/-- Clear-cart example state: both products in the database, cart holding
`qa` of A and `qb` of B. -/
def clearState (a b qa qb : Int) : SysState :=
  { db := [rowA a, rowB b], featuredProducts := [], cartItems := [itemA qa, itemB qb] }

/-- Clear-cart partial-failure state: product A is missing from the
database, so its restore call fails with a 404. -/
def clearStateNoA (b qa qb : Int) : SysState :=
  { db := [rowB b], featuredProducts := [], cartItems := [itemA qa, itemB qb] }

/-- Witness vendor for the login claims: active, no password stored. -/
def vendorW : Vendor :=
  { email := "a@b.com", phoneNumber := "0241234567", vendorName := "Ama", isActive := true }

/-- Initial state of the concurrency counterexample: stock 1, both PATCH
calls not yet started. -/
def raceInit : RaceState := { stock := 1, c1 := Phase.ready, c2 := Phase.ready }

theorem find?_updStock (id : String) (v : Int) (db : List DbProduct) :
    (updStock id v db).find? (fun p => p.id == id)
      = (db.find? (fun p => p.id == id)).map (fun p => { p with stockQuantity := v }) := by
  induction db with
  | nil => rfl
  | cons p rest ih =>
    show List.find? (fun q => q.id == id)
        ((if p.id == id then { p with stockQuantity := v } else p) :: updStock id v rest)
      = ((p :: rest).find? (fun q => q.id == id)).map (fun q => { q with stockQuantity := v })
    by_cases h : (p.id == id) = true
    · have h2 : (({ p with stockQuantity := v } : DbProduct).id == id) = true := h
      have e1 : List.find? (fun q => q.id == id)
          (({ p with stockQuantity := v } : DbProduct) :: updStock id v rest)
          = some { p with stockQuantity := v } := List.find?_cons_of_pos _ h2
      have e2 : List.find? (fun q => q.id == id) (p :: rest) = some p :=
        List.find?_cons_of_pos _ h
      rw [if_pos h, e1, e2]
      rfl
    · have e1 : List.find? (fun q => q.id == id) (p :: updStock id v rest)
          = List.find? (fun q => q.id == id) (updStock id v rest) :=
        List.find?_cons_of_neg _ h
      have e2 : List.find? (fun q => q.id == id) (p :: rest)
          = List.find? (fun q => q.id == id) rest :=
        List.find?_cons_of_neg _ h
      rw [if_neg h, e1, e2]
      exact ih

theorem getStock_updStock (id : String) (v : Int) (db : List DbProduct) :
    getStock (updStock id v db) id = (getStock db id).map (fun _ => v) := by
  unfold getStock
  rw [find?_updStock]
  cases db.find? (fun p => p.id == id) <;> rfl

theorem getStock_eq_none_iff (db : List DbProduct) (id : String) :
    getStock db id = none ↔ db.find? (fun p => p.id == id) = none := by
  unfold getStock
  cases db.find? (fun p => p.id == id) <;> simp

theorem getStock_eq_some_iff (db : List DbProduct) (id : String) (cur : Int) :
    getStock db id = some cur
      ↔ ∃ p, db.find? (fun q => q.id == id) = some p ∧ p.stockQuantity = cur := by
  unfold getStock
  cases hx : db.find? (fun q => q.id == id) with
  | none => simp
  | some p => simp [eq_comm]

theorem patchStock_none (db : List DbProduct) (id : String) (op : Option String) :
    patchStock db id none op = (StockResponse.validationError, db) := rfl

theorem patchStock_notFound (db : List DbProduct) (id : String) (delta : Int)
    (op : Option String) (hf : db.find? (fun p => p.id == id) = none) :
    patchStock db id (some delta) op = (StockResponse.notFound, db) := by
  unfold patchStock
  rw [hf]

theorem patchStock_insufficient (db : List DbProduct) (id : String) (delta : Int)
    (op : Option String) (p : DbProduct) (hp : db.find? (fun q => q.id == id) = some p)
    (hneg : p.stockQuantity + delta < 0) :
    patchStock db id (some delta) op = (StockResponse.insufficientStock p.stockQuantity delta, db) := by
  unfold patchStock
  rw [hp]
  simp only [if_pos hneg]

theorem patchStock_ok (db : List DbProduct) (id : String) (delta : Int)
    (op : Option String) (p : DbProduct) (hp : db.find? (fun q => q.id == id) = some p)
    (hpos : 0 ≤ p.stockQuantity + delta) :
    patchStock db id (some delta) op
      = (StockResponse.success p.stockQuantity (p.stockQuantity + delta) delta,
          updStock id (p.stockQuantity + delta) db) := by
  unfold patchStock
  rw [hp]
  simp only [if_neg (not_lt.mpr hpos)]

theorem updateProductStock_ok (s : SysState) (pid : String) (qc cur : Int)
    (h : getStock s.db pid = some cur) (hn : 0 ≤ cur + qc) :
    updateProductStock s pid qc
      = (UpdateOutcome.ok (cur + qc),
          { s with db := updStock pid (cur + qc) s.db,
                   featuredProducts := s.featuredProducts.map (fun p =>
                     if p.id == pid then { p with stockQuantity := cur + qc } else p) }) := by
  obtain ⟨p, hp, hps⟩ := (getStock_eq_some_iff s.db pid cur).mp h
  unfold updateProductStock
  rw [patchStock_ok s.db pid qc none p hp (by rw [hps]; exact hn), hps]

theorem updateProductStock_err_snd (s : SysState) (pid : String) (qc : Int)
    (h : (updateProductStock s pid qc).fst = UpdateOutcome.err) :
    (updateProductStock s pid qc).snd = s := by
  unfold updateProductStock at *
  rcases hx : patchStock s.db pid (some qc) none with ⟨r, db1⟩
  cases r <;> simp_all

theorem patchStock_success_inv (db : List DbProduct) (id : String) (qc : Int)
    (op : Option String) (prev nw ch : Int) (db1 : List DbProduct)
    (hx : patchStock db id (some qc) op = (StockResponse.success prev nw ch, db1)) :
    ch = qc ∧ nw = prev + qc ∧ 0 ≤ nw ∧ getStock db id = some prev
      ∧ db1 = updStock id nw db := by
  cases hf : db.find? (fun p => p.id == id) with
  | none =>
    rw [patchStock_notFound db id qc op hf] at hx
    exact absurd (congrArg Prod.fst hx) (by simp)
  | some p =>
    by_cases hneg : p.stockQuantity + qc < 0
    · rw [patchStock_insufficient db id qc op p hf hneg] at hx
      exact absurd (congrArg Prod.fst hx) (by simp)
    · rw [patchStock_ok db id qc op p hf (not_lt.mp hneg)] at hx
      rw [Prod.mk.injEq] at hx
      obtain ⟨h1, h2⟩ := hx
      simp only [StockResponse.success.injEq] at h1
      obtain ⟨e1, e2, e3⟩ := h1
      refine ⟨e3.symm, by omega, by omega, ?_, ?_⟩
      · exact (getStock_eq_some_iff db id prev).mpr ⟨p, hf, e1⟩
      · rw [← h2, ← e2]

theorem updateProductStock_fst_ok (s : SysState) (pid : String) (qc : Int) (nw : Int)
    (h : (updateProductStock s pid qc).fst = UpdateOutcome.ok nw) :
    patchStock s.db pid (some qc) none
      = (StockResponse.success (nw - qc) nw qc, (updateProductStock s pid qc).snd.db) := by
  unfold updateProductStock at *
  rcases hx : patchStock s.db pid (some qc) none with ⟨r, db1⟩
  rw [hx] at h
  cases r with
  | success prev nw' ch =>
    simp only [UpdateOutcome.ok.injEq] at h
    obtain ⟨e1, e2, e3, e4, e5⟩ := patchStock_success_inv s.db pid qc none prev nw' ch db1 hx
    have h1 : prev = nw - qc := by omega
    rw [e1, h1, h]
  | validationError => simp at h
  | notFound => simp at h
  | insufficientStock a b => simp at h

theorem find?_updStock_other (id1 id2 : String) (v : Int) (db : List DbProduct)
    (hne : id1 ≠ id2) :
    getStock (updStock id1 v db) id2 = getStock db id2 := by
  induction db with
  | nil => rfl
  | cons p rest ih =>
    show getStock ((if p.id == id1 then { p with stockQuantity := v } else p) :: updStock id1 v rest) id2
      = getStock (p :: rest) id2
    by_cases h1 : (p.id == id1) = true
    · have hid : p.id = id1 := by simpa using h1
      have h2b : ¬ ((p.id == id2) = true) := by
        simp [hid]
        exact hne
      have h2c : ¬ ((({ p with stockQuantity := v } : DbProduct).id == id2) = true) := h2b
      have e1 : List.find? (fun q => q.id == id2)
          (({ p with stockQuantity := v } : DbProduct) :: updStock id1 v rest)
          = List.find? (fun q => q.id == id2) (updStock id1 v rest) :=
        List.find?_cons_of_neg _ h2c
      have e2 : List.find? (fun q => q.id == id2) (p :: rest)
          = List.find? (fun q => q.id == id2) rest :=
        List.find?_cons_of_neg _ h2b
      unfold getStock
      rw [if_pos h1, e1, e2]
      exact ih
    · by_cases h2 : (p.id == id2) = true
      · have e1 : List.find? (fun q => q.id == id2) (p :: updStock id1 v rest) = some p :=
          List.find?_cons_of_pos _ h2
        have e2 : List.find? (fun q => q.id == id2) (p :: rest) = some p :=
          List.find?_cons_of_pos _ h2
        unfold getStock
        rw [if_neg h1, e1, e2]
      · have e1 : List.find? (fun q => q.id == id2) (p :: updStock id1 v rest)
            = List.find? (fun q => q.id == id2) (updStock id1 v rest) :=
          List.find?_cons_of_neg _ h2
        have e2 : List.find? (fun q => q.id == id2) (p :: rest)
            = List.find? (fun q => q.id == id2) rest :=
          List.find?_cons_of_neg _ h2
        unfold getStock
        rw [if_neg h1, e1, e2]
        exact ih

/-- Claim C1: the stock-adjustment operation (PATCH /products/{id}/stock),
for every product identifier and signed integer delta, reads the current
stock, computes `new = current + delta`, rejects with an insufficient-stock
error (HTTP 400) if `new < 0`, rejects with 404 if the product does not
exist, and otherwise persists `new` and returns both the previous and the
new stock values. -/
theorem C1_patch_stock_contract (db : List DbProduct) (id : String) (delta : Int)
    (op : Option String) :
    (getStock db id = none →
      patchStock db id (some delta) op = (StockResponse.notFound, db)
        ∧ statusCode StockResponse.notFound = 404) ∧
    (∀ cur, getStock db id = some cur →
      (cur + delta < 0 →
        patchStock db id (some delta) op = (StockResponse.insufficientStock cur delta, db)
          ∧ statusCode (StockResponse.insufficientStock cur delta) = 400) ∧
      (0 ≤ cur + delta →
        (patchStock db id (some delta) op).fst = StockResponse.success cur (cur + delta) delta
          ∧ getStock (patchStock db id (some delta) op).snd id = some (cur + delta))) := by
  refine ⟨?_, ?_⟩
  · intro hnone
    exact ⟨patchStock_notFound db id delta op ((getStock_eq_none_iff db id).mp hnone), rfl⟩
  · intro cur hcur
    obtain ⟨p, hp, hps⟩ := (getStock_eq_some_iff db id cur).mp hcur
    refine ⟨?_, ?_⟩
    · intro hneg
      refine ⟨?_, rfl⟩
      rw [patchStock_insufficient db id delta op p hp (by omega), hps]
    · intro hpos
      rw [patchStock_ok db id delta op p hp (by omega)]
      refine ⟨by rw [hps], ?_⟩
      show getStock (updStock id (p.stockQuantity + delta) db) id = some (cur + delta)
      rw [getStock_updStock, hcur, hps]
      rfl

/-- Witness for C1 at a concrete input: database `dbW` (stock 10), delta -4. -/
theorem C1_patch_stock_contract_witness :
    (patchStock dbW "p1" (some (-4)) none).fst = StockResponse.success 10 (10 + (-4)) (-4)
      ∧ getStock (patchStock dbW "p1" (some (-4)) none).snd "p1" = some (10 + (-4)) :=
  ((C1_patch_stock_contract dbW "p1" (-4) none).2 10 (by decide)).2 (by decide)

/-- Claim C3: a product's `stockQuantity` is a non-negative integer, an
invariant preserved by the stock-adjustment operation: starting from a
database of non-negative stocks, after any call (accepted or rejected,
any delta, even an absent one) every stored stock is still non-negative. -/
theorem C3_stock_nonneg_invariant (db : List DbProduct) (id : String)
    (qc : Option Int) (op : Option String)
    (h : ∀ p ∈ db, 0 ≤ p.stockQuantity) :
    ∀ p ∈ (patchStock db id qc op).snd, 0 ≤ p.stockQuantity := by
  cases qc with
  | none => simpa using h
  | some delta =>
    cases hf : db.find? (fun p => p.id == id) with
    | none =>
      rw [patchStock_notFound db id delta op hf]
      simpa using h
    | some prod =>
      by_cases hneg : prod.stockQuantity + delta < 0
      · rw [patchStock_insufficient db id delta op prod hf hneg]
        simpa using h
      · rw [patchStock_ok db id delta op prod hf (not_lt.mp hneg)]
        intro p hp
        simp only [updStock, List.mem_map] at hp
        obtain ⟨q, hq, hfq⟩ := hp
        by_cases hid : (q.id == id) = true
        · rw [if_pos hid] at hfq
          rw [← hfq]
          exact not_lt.mp hneg
        · rw [if_neg hid] at hfq
          rw [← hfq]
          exact h q hq

/-- Witness for C3 at a concrete input: the row left by a rejected
over-subtraction (delta -40 against stock 10) still has stock 10 >= 0. -/
theorem C3_stock_nonneg_invariant_witness :
    0 ≤ ({ id := "p1", productName := "Widget", stockQuantity := 10 } : DbProduct).stockQuantity :=
  C3_stock_nonneg_invariant dbW "p1" (some (-40)) none (by decide)
    { id := "p1", productName := "Widget", stockQuantity := 10 } (by decide)

/-- Claim C10: PATCH /products/{id}/stock answers the validation error
(400) precisely when `quantityChange` is absent (undefined/null); a present
`quantityChange = 0` is accepted for an existing product and succeeds with
`newStock = previousStock` (the stored stock unchanged); and the
`operation` body field has no effect on the result. -/
theorem C10_patch_stock_validation (db : List DbProduct) (id : String)
    (qc : Option Int) (op op2 : Option String) :
    ((patchStock db id qc op).fst = StockResponse.validationError ↔ qc = none) ∧
    statusCode StockResponse.validationError = 400 ∧
    patchStock db id qc op = patchStock db id qc op2 ∧
    (∀ cur, getStock db id = some cur → 0 ≤ cur →
      (patchStock db id (some 0) op).fst = StockResponse.success cur cur 0 ∧
      getStock (patchStock db id (some 0) op).snd id = some cur) := by
  refine ⟨⟨?_, ?_⟩, rfl, rfl, ?_⟩
  · intro h
    cases qc with
    | none => rfl
    | some delta =>
      exfalso
      cases hf : db.find? (fun p => p.id == id) with
      | none =>
        rw [patchStock_notFound db id delta op hf] at h
        simp at h
      | some prod =>
        by_cases hneg : prod.stockQuantity + delta < 0
        · rw [patchStock_insufficient db id delta op prod hf hneg] at h
          simp at h
        · rw [patchStock_ok db id delta op prod hf (not_lt.mp hneg)] at h
          simp at h
  · intro h
    subst h
    rfl
  · intro cur hcur hcur0
    obtain ⟨p, hp, hps⟩ := (getStock_eq_some_iff db id cur).mp hcur
    rw [patchStock_ok db id 0 op p hp (by omega)]
    constructor
    · show StockResponse.success p.stockQuantity (p.stockQuantity + 0) 0
        = StockResponse.success cur cur 0
      rw [Int.add_zero, hps]
    · show getStock (updStock id (p.stockQuantity + 0) db) id = some cur
      rw [getStock_updStock, hcur]
      show some (p.stockQuantity + 0) = some cur
      rw [Int.add_zero, hps]

/-- Witness for C10 at a concrete input: `quantityChange = 0` against
stock 10 succeeds and leaves the stock at 10. -/
theorem C10_patch_stock_validation_witness :
    (patchStock dbW "p1" (some 0) none).fst = StockResponse.success 10 10 0
      ∧ getStock (patchStock dbW "p1" (some 0) none).snd "p1" = some 10 :=
  (C10_patch_stock_validation dbW "p1" (some 0) none (some "add")).2.2.2 10 (by decide) (by decide)

/-- Claim C7: POST /auth/vendor-login never verifies the password value:
with a non-empty identifier and non-empty password the result does not
depend on which password was sent, and whenever the identifier matches an
existing vendor whose account is active the call succeeds and returns that
vendor.  Only field-presence and account-active checks are performed. -/
theorem C7_login_ignores_password (vendors : List Vendor) (identifier p1 p2 : String)
    (hid : identifier ≠ "") (hp1 : p1 ≠ "") (hp2 : p2 ≠ "") :
    vendorLogin vendors identifier p1 = vendorLogin vendors identifier p2 ∧
    (∀ v, vendors.find? (fun v =>
        v.email == toLowerStr (trimStr identifier)
          || v.phoneNumber == trimStr identifier) = some v →
      v.isActive = true → vendorLogin vendors identifier p1 = LoginResponse.success v) := by
  have hcond1 : ¬ (identifier = "" ∨ p1 = "") := by tauto
  have hcond2 : ¬ (identifier = "" ∨ p2 = "") := by tauto
  constructor
  · unfold vendorLogin
    rw [if_neg hcond1, if_neg hcond2]
  · intro v hv hact
    simp only [vendorLogin]
    rw [if_neg hcond1, hv]
    simp [hact]

/-- Witness for C7 at a concrete input: the active vendor `vendorW` logs in
with an arbitrary password. -/
theorem C7_login_ignores_password_witness :
    vendorLogin [vendorW] "a@b.com" "totally-wrong-password" = LoginResponse.success vendorW :=
  (C7_login_ignores_password [vendorW] "a@b.com" "totally-wrong-password" "x"
    (by decide) (by decide) (by decide)).2 vendorW (by decide) (by decide)

/-- Claim C2 evaluated on the code.  First conjunct: the spec's example
trace holds (stock 10, add quantity 3 gives stock 7 and cart {qty 3};
delta +2 gives stock 5 and cart {qty 5}; removing the item returns stock
to 10 and empties the cart), every server call succeeding.  Second
conjunct, the failing input: from stock 10, add quantity 1 (stock 9,
cart {qty 1}), then `updateCartQuantity` with delta -1 — every server
call still succeeds, the cart still holds net quantity 1, but the stock
is 10, not the 10 - 1 = 9 the claimed balance demands: the code clamps
the local quantity at 1 yet still sends the unclamped `-delta` (+1) to
the server, so "final stock = initial stock minus net held quantity"
fails. -/
theorem C2_stock_cart_balance_trace :
    ((addToCart sW prodW 3).fst = AddResult.added
      ∧ getStock sEx1.db "p1" = some 7
      ∧ sEx1.cartItems.map (fun i => i.quantity) = [3]
      ∧ (updateCartQuantity sEx1 "p1" 2).fst = UpdateCartResult.updated
      ∧ getStock sEx2.db "p1" = some 5
      ∧ sEx2.cartItems.map (fun i => i.quantity) = [5]
      ∧ (removeFromCart sEx2 "p1").fst = RemoveResult.removed
      ∧ getStock sEx3.db "p1" = some 10
      ∧ sEx3.cartItems = [])
    ∧ ((addToCart sW prodW 1).fst = AddResult.added
      ∧ getStock tEx1.db "p1" = some 9
      ∧ (updateCartQuantity tEx1 "p1" (-1)).fst = UpdateCartResult.updated
      ∧ tEx2.cartItems.map (fun i => i.quantity) = [1]
      ∧ getStock tEx2.db "p1" = some 10
      ∧ ¬ getStock tEx2.db "p1" = some (10 - 1)) := by
  decide

/-- Claim C8 counterexample: with stock 1 and both sessions requesting
quantity 1, the interleaving in which both handler calls read the stock
before either writes (read1, read2, write1, write2) lets both calls
succeed — not at most one — and leaves stock 0. -/
theorem C8_counterexample_both_succeed :
    successCount (runRace (-1) (-1) [true, false, true, false] raceInit) = 2
      ∧ ¬ successCount (runRace (-1) (-1) [true, false, true, false] raceInit) ≤ 1
      ∧ (runRace (-1) (-1) [true, false, true, false] raceInit).stock = 0 := by
  decide

/-- Claim C8 amended: at most one of the two calls succeeds only under
serialized execution — when either call completes its read and write
before the other starts, exactly one call succeeds and the final stock
is 0. -/
theorem C8_amended_serial_at_most_one :
    successCount (runRace (-1) (-1) [true, true, false, false] raceInit) = 1
      ∧ (runRace (-1) (-1) [true, true, false, false] raceInit).stock = 0
      ∧ successCount (runRace (-1) (-1) [false, false, true, true] raceInit) = 1
      ∧ (runRace (-1) (-1) [false, false, true, true] raceInit).stock = 0 := by
  decide

theorem commitCart_not_added (s : SysState) (pid : String) (qc : Int)
    (cart : List CartItem) (r : AddResult) (s2 : SysState)
    (h : commitCart s pid qc cart = (r, s2)) (hr : r ≠ AddResult.added) :
    s2 = s := by
  unfold commitCart at h
  rcases hx : updateProductStock s pid (-qc) with ⟨out, s1⟩
  rw [hx] at h
  cases out with
  | ok nw => simp_all
  | err =>
    simp only [Prod.mk.injEq] at h
    have hfst : (updateProductStock s pid (-qc)).fst = UpdateOutcome.err := by
      rw [hx]
    have := updateProductStock_err_snd s pid (-qc) hfst
    rw [hx] at this
    rw [← h.2]
    exact this

theorem commitCart_added (s : SysState) (pid : String) (qc : Int)
    (cart : List CartItem) (s2 : SysState)
    (h : commitCart s pid qc cart = (AddResult.added, s2)) :
    ∃ nw, patchStock s.db pid (some (-qc)) none
        = (StockResponse.success (nw + qc) nw (-qc), s2.db)
      ∧ s2.cartItems = cart := by
  unfold commitCart at h
  rcases hx : updateProductStock s pid (-qc) with ⟨out, s1⟩
  rw [hx] at h
  cases out with
  | err => simp_all
  | ok nw =>
    simp only [Prod.mk.injEq] at h
    have hfst : (updateProductStock s pid (-qc)).fst = UpdateOutcome.ok nw := by
      rw [hx]
    have hps := updateProductStock_fst_ok s pid (-qc) nw hfst
    refine ⟨nw, ?_, ?_⟩
    · rw [hps, hx]
      have : nw - -qc = nw + qc := by omega
      rw [this, ← h.2]
    · rw [← h.2]

/-- Claim C4: `addToCart(product, quantity)` verifies the requested
quantity against the currently known stock — a request for more than the
known stock is rejected with no change to stock or cart — then issues a
stock decrement of the added quantity, and persists the line item to the
local cart only if the decrement succeeds: whenever the result is not
`added` (an error toast is surfaced), the whole state — cart, database,
product list — is exactly the initial one; whenever it is `added`, the
server accepted the decrement of `quantity` and its resulting database is
kept. -/
theorem C4_addToCart_checks_and_commits (s : SysState) (product : Product) (quantity : Int) :
    (quantity > product.stockQuantity →
      addToCart s product quantity = (AddResult.stockLimitError, s)) ∧
    (∀ s2, addToCart s product quantity = (AddResult.added, s2) →
      ∃ nw, patchStock s.db product.id (some (-quantity)) none
        = (StockResponse.success (nw + quantity) nw (-quantity), s2.db)) ∧
    (∀ r s2, addToCart s product quantity = (r, s2) → r ≠ AddResult.added → s2 = s) := by
  by_cases hq : quantity > product.stockQuantity
  · refine ⟨fun _ => ?_, ?_, ?_⟩
    · unfold addToCart
      rw [if_pos hq]
    · intro s2 h
      unfold addToCart at h
      rw [if_pos hq] at h
      simp at h
    · intro r s2 h hr
      unfold addToCart at h
      rw [if_pos hq] at h
      simp only [Prod.mk.injEq] at h
      exact h.2.symm
  · refine ⟨fun hq2 => absurd hq2 hq, ?_, ?_⟩
    · intro s2 h
      by_cases hs : product.stockQuantity ≤ 0
      · have heq : addToCart s product quantity = (AddResult.outOfStockError, s) := by
          simp only [addToCart, if_neg hq, if_pos hs]
        rw [heq] at h
        simp at h
      · cases hfind : s.cartItems.find? (fun item => item.productId == product.id) with
        | some existing =>
          by_cases hmerge : existing.quantity + quantity > product.stockQuantity
          · have heq : addToCart s product quantity = (AddResult.mergeLimitError, s) := by
              simp only [addToCart, if_neg hq, if_neg hs, hfind, if_pos hmerge]
            rw [heq] at h
            simp at h
          · have heq : addToCart s product quantity
                = commitCart s product.id quantity
                    (replaceFirstBy (fun item => item.productId == product.id)
                      (fun item =>
                        { item with
                            quantity := existing.quantity + quantity,
                            stockQuantity := product.stockQuantity - quantity })
                      s.cartItems) := by
              simp only [addToCart, if_neg hq, if_neg hs, hfind, if_neg hmerge]
            rw [heq] at h
            obtain ⟨nw, hps, _⟩ := commitCart_added s product.id quantity _ s2 h
            exact ⟨nw, hps⟩
        | none =>
          have heq : addToCart s product quantity
              = commitCart s product.id quantity
                  (s.cartItems ++
                    [{ productId := product.id, productName := product.productName,
                       price := product.price, quantity := quantity,
                       stockQuantity := product.stockQuantity - quantity }]) := by
            simp only [addToCart, if_neg hq, if_neg hs, hfind]
          rw [heq] at h
          obtain ⟨nw, hps, _⟩ := commitCart_added s product.id quantity _ s2 h
          exact ⟨nw, hps⟩
    · intro r s2 h hr
      by_cases hs : product.stockQuantity ≤ 0
      · have heq : addToCart s product quantity = (AddResult.outOfStockError, s) := by
          simp only [addToCart, if_neg hq, if_pos hs]
        rw [heq] at h
        simp only [Prod.mk.injEq] at h
        exact h.2.symm
      · cases hfind : s.cartItems.find? (fun item => item.productId == product.id) with
        | some existing =>
          by_cases hmerge : existing.quantity + quantity > product.stockQuantity
          · have heq : addToCart s product quantity = (AddResult.mergeLimitError, s) := by
              simp only [addToCart, if_neg hq, if_neg hs, hfind, if_pos hmerge]
            rw [heq] at h
            simp only [Prod.mk.injEq] at h
            exact h.2.symm
          · have heq : addToCart s product quantity
                = commitCart s product.id quantity
                    (replaceFirstBy (fun item => item.productId == product.id)
                      (fun item =>
                        { item with
                            quantity := existing.quantity + quantity,
                            stockQuantity := product.stockQuantity - quantity })
                      s.cartItems) := by
              simp only [addToCart, if_neg hq, if_neg hs, hfind, if_neg hmerge]
            rw [heq] at h
            exact commitCart_not_added s product.id quantity _ r s2 h hr
        | none =>
          have heq : addToCart s product quantity
              = commitCart s product.id quantity
                  (s.cartItems ++
                    [{ productId := product.id, productName := product.productName,
                       price := product.price, quantity := quantity,
                       stockQuantity := product.stockQuantity - quantity }]) := by
            simp only [addToCart, if_neg hq, if_neg hs, hfind]
          rw [heq] at h
          exact commitCart_not_added s product.id quantity _ r s2 h hr

/-- Witness for C4 at a concrete input: requesting 20 of a product with
known stock 10 is rejected, leaving the state unchanged. -/
theorem C4_addToCart_checks_and_commits_witness :
    addToCart sW prodW 20 = (AddResult.stockLimitError, sW) :=
  (C4_addToCart_checks_and_commits sW prodW 20).1 (by decide)

/-- Claim C9: for a product already present in the cart, `addToCart`
rejects — leaving cart and stock unchanged — when the existing cart
quantity plus the newly added quantity exceeds the currently known
`stockQuantity`; otherwise it merges into the existing line item and the
stock decrement sent to the server is only the newly added quantity, not
the combined total. -/
theorem C9_addToCart_merges_existing (s : SysState) (product : Product) (quantity : Int)
    (item : CartItem)
    (hfind : s.cartItems.find? (fun i => i.productId == product.id) = some item)
    (hq : ¬ quantity > product.stockQuantity)
    (hs : ¬ product.stockQuantity ≤ 0) :
    (item.quantity + quantity > product.stockQuantity →
      addToCart s product quantity = (AddResult.mergeLimitError, s)) ∧
    (∀ cur, item.quantity + quantity ≤ product.stockQuantity →
      getStock s.db product.id = some cur → 0 ≤ cur - quantity →
      (addToCart s product quantity).fst = AddResult.added ∧
      getStock (addToCart s product quantity).snd.db product.id = some (cur - quantity) ∧
      (addToCart s product quantity).snd.cartItems
        = replaceFirstBy (fun i => i.productId == product.id)
            (fun i =>
              { i with
                  quantity := item.quantity + quantity,
                  stockQuantity := product.stockQuantity - quantity })
            s.cartItems) := by
  constructor
  · intro hmerge
    simp only [addToCart, if_neg hq, if_neg hs, hfind, if_pos hmerge]
  · intro cur hmerge hcur hok
    have hnle : ¬ item.quantity + quantity > product.stockQuantity := by omega
    have heq : addToCart s product quantity
        = commitCart s product.id quantity
            (replaceFirstBy (fun i => i.productId == product.id)
              (fun i =>
                { i with
                    quantity := item.quantity + quantity,
                    stockQuantity := product.stockQuantity - quantity })
              s.cartItems) := by
      simp only [addToCart, if_neg hq, if_neg hs, hfind, if_neg hnle]
    have hup := updateProductStock_ok s product.id (-quantity) cur hcur (by omega)
    rw [heq]
    simp only [commitCart, hup]
    refine ⟨trivial, ?_, trivial⟩
    rw [getStock_updStock, hcur, sub_eq_add_neg]
    rfl

/-- Witness for C9 at a concrete input: cart holds 2, adding 3 against
known stock 8 merges to 5 and decrements the database stock by 3 only. -/
theorem C9_addToCart_merges_existing_witness :
    (addToCart sHold prodHold 3).fst = AddResult.added ∧
    getStock (addToCart sHold prodHold 3).snd.db "p1" = some (8 - 3) ∧
    (addToCart sHold prodHold 3).snd.cartItems
      = replaceFirstBy (fun i => i.productId == "p1")
          (fun i => { i with quantity := itemHold.quantity + 3, stockQuantity := 8 - 3 })
          sHold.cartItems :=
  (C9_addToCart_merges_existing sHold prodHold 3 itemHold (by decide) (by decide) (by decide)).2
    8 (by decide) (by decide) (by decide)

/-- Claim C5: `removeFromCart`, for a cart line item present in the cart,
restores exactly the item's held quantity back to the product's stock and
removes the line item from the cart. -/
theorem C5_remove_restores_quantity (s : SysState) (productId : String)
    (item : CartItem) (cur : Int)
    (h1 : s.cartItems.find? (fun i => i.productId == productId) = some item)
    (h2 : getStock s.db productId = some cur)
    (h3 : 0 ≤ cur + item.quantity) :
    (removeFromCart s productId).fst = RemoveResult.removed
      ∧ getStock (removeFromCart s productId).snd.db productId = some (cur + item.quantity)
      ∧ (removeFromCart s productId).snd.cartItems
          = s.cartItems.filter (fun ci => ci.productId != productId) := by
  have hup := updateProductStock_ok s productId item.quantity cur h2 h3
  refine ⟨?_, ?_, ?_⟩ <;> simp only [removeFromCart, h1, hup]
  rw [getStock_updStock, h2]
  rfl

/-- Witness for C5 at a concrete input: removing the held 2 units raises
the database stock from 8 to 8 + 2 and empties the cart. -/
theorem C5_remove_restores_quantity_witness :
    (removeFromCart sHold "p1").fst = RemoveResult.removed
      ∧ getStock (removeFromCart sHold "p1").snd.db "p1" = some (8 + itemHold.quantity)
      ∧ (removeFromCart sHold "p1").snd.cartItems
          = sHold.cartItems.filter (fun ci => ci.productId != "p1") :=
  C5_remove_restores_quantity sHold "p1" itemHold 8 (by decide) (by decide) (by decide)

/-- Claim C6: clearing a cart holding qa units of product A and qb units
of product B restores each item's full held quantity to its product's
stock (A gains qa, B gains qb), one restore call per item, none dropped;
and when one item's restore fails (product A missing from the database,
a 404), the other item's restore is still issued and applied, and the
failure is recorded rather than silently dropped. -/
theorem C6_clearCart_restores_all (a b qa qb : Int)
    (ha : 0 ≤ a) (hb : 0 ≤ b) (hqa : 0 ≤ qa) (hqb : 0 ≤ qb) :
    ((clearCart (clearState a b qa qb)).fst = [("pA", true), ("pB", true)]
      ∧ getStock (clearCart (clearState a b qa qb)).snd.db "pA" = some (a + qa)
      ∧ getStock (clearCart (clearState a b qa qb)).snd.db "pB" = some (b + qb)
      ∧ (clearCart (clearState a b qa qb)).snd.cartItems = [])
    ∧ ((clearCart (clearStateNoA b qa qb)).fst = [("pA", false), ("pB", true)]
      ∧ getStock (clearCart (clearStateNoA b qa qb)).snd.db "pB" = some (b + qb)
      ∧ (clearCart (clearStateNoA b qa qb)).snd.cartItems = []) := by
  constructor
  · have h1 : getStock (clearState a b qa qb).db "pA" = some a := by
      simp [clearState, getStock, rowA, rowB]
    have h0B : getStock (clearState a b qa qb).db "pB" = some b := by
      simp [clearState, getStock, rowA, rowB]
    have hu1 := updateProductStock_ok (clearState a b qa qb) "pA" qa a h1 (by omega)
    have f1 : (updateProductStock (clearState a b qa qb) "pA" qa).snd.db
        = updStock "pA" (a + qa) (clearState a b qa qb).db := by rw [hu1]
    have fst1 : (updateProductStock (clearState a b qa qb) "pA" qa).fst
        = UpdateOutcome.ok (a + qa) := by rw [hu1]
    have h2 : getStock (updateProductStock (clearState a b qa qb) "pA" qa).snd.db "pB"
        = some b := by
      rw [f1, find?_updStock_other "pA" "pB" (a + qa) (clearState a b qa qb).db (by decide)]
      exact h0B
    have hu2 := updateProductStock_ok ((updateProductStock (clearState a b qa qb) "pA" qa).snd)
      "pB" qb b h2 (by omega)
    have f2 : (updateProductStock ((updateProductStock (clearState a b qa qb) "pA" qa).snd)
          "pB" qb).snd.db
        = updStock "pB" (b + qb)
            (updateProductStock (clearState a b qa qb) "pA" qa).snd.db := by rw [hu2]
    have fst2 : (updateProductStock ((updateProductStock (clearState a b qa qb) "pA" qa).snd)
          "pB" qb).fst
        = UpdateOutcome.ok (b + qb) := by rw [hu2]
    have hcart : (clearState a b qa qb).cartItems = [itemA qa, itemB qb] := rfl
    refine ⟨?_, ?_, ?_, ?_⟩
    · simp only [clearCart, hcart, restoreAll, itemA, itemB, fst1, fst2]
    · simp only [clearCart, hcart, restoreAll, itemA, itemB]
      rw [f2, find?_updStock_other "pB" "pA" (b + qb) _ (by decide), f1,
        getStock_updStock, h1]
      rfl
    · simp only [clearCart, hcart, restoreAll, itemA, itemB]
      rw [f2, getStock_updStock, h2]
      rfl
    · rfl
  · have hfnone : (clearStateNoA b qa qb).db.find? (fun p => p.id == "pA") = none := by
      simp [clearStateNoA, rowB]
    have hM1 : updateProductStock (clearStateNoA b qa qb) "pA" qa
        = (UpdateOutcome.err, clearStateNoA b qa qb) := by
      unfold updateProductStock
      rw [patchStock_notFound _ "pA" qa none hfnone]
    have fstM1 : (updateProductStock (clearStateNoA b qa qb) "pA" qa).fst
        = UpdateOutcome.err := by rw [hM1]
    have sndM1 : (updateProductStock (clearStateNoA b qa qb) "pA" qa).snd
        = clearStateNoA b qa qb := by rw [hM1]
    have h2' : getStock (updateProductStock (clearStateNoA b qa qb) "pA" qa).snd.db "pB"
        = some b := by
      rw [sndM1]
      simp [clearStateNoA, getStock, rowB]
    have hu2' := updateProductStock_ok ((updateProductStock (clearStateNoA b qa qb) "pA" qa).snd)
      "pB" qb b h2' (by omega)
    have f2' : (updateProductStock ((updateProductStock (clearStateNoA b qa qb) "pA" qa).snd)
          "pB" qb).snd.db
        = updStock "pB" (b + qb)
            (updateProductStock (clearStateNoA b qa qb) "pA" qa).snd.db := by rw [hu2']
    have fst2' : (updateProductStock ((updateProductStock (clearStateNoA b qa qb) "pA" qa).snd)
          "pB" qb).fst
        = UpdateOutcome.ok (b + qb) := by rw [hu2']
    have hcart' : (clearStateNoA b qa qb).cartItems = [itemA qa, itemB qb] := rfl
    refine ⟨?_, ?_, ?_⟩
    · simp only [clearCart, hcart', restoreAll, itemA, itemB, fstM1, fst2']
    · simp only [clearCart, hcart', restoreAll, itemA, itemB]
      rw [f2', getStock_updStock, h2']
      rfl
    · rfl

/-- Witness for C6 at a concrete input: stocks 5 and 7, cart {A: 2, B: 3}
— A is restored to 7, B to 10 even in the partial-failure run. -/
theorem C6_clearCart_restores_all_witness :
    ((clearCart (clearState 5 7 2 3)).fst = [("pA", true), ("pB", true)]
      ∧ getStock (clearCart (clearState 5 7 2 3)).snd.db "pA" = some (5 + 2)
      ∧ getStock (clearCart (clearState 5 7 2 3)).snd.db "pB" = some (7 + 3)
      ∧ (clearCart (clearState 5 7 2 3)).snd.cartItems = [])
    ∧ ((clearCart (clearStateNoA 7 2 3)).fst = [("pA", false), ("pB", true)]
      ∧ getStock (clearCart (clearStateNoA 7 2 3)).snd.db "pB" = some (7 + 3)
      ∧ (clearCart (clearStateNoA 7 2 3)).snd.cartItems = []) :=
  C6_clearCart_restores_all 5 7 2 3 (by decide) (by decide) (by decide) (by decide)
